import Mathlib

/-!
Verification of the Signal Engine of the fraud/corruption risk-assessment
platform (backend/app/services/signals). The Python sources are shallowly
embedded: every scoring, aggregation and orchestration function is translated
into an executable Lean definition over exact rational arithmetic. The
regex-based text-extraction helpers (extract_leading_digits,
extract_monetary_amounts, extract_invoice_candidates, extract_bids,
extract_dates, find_keywords) are abstracted as inputs: each detector model
takes the extracted data that the Python extraction layer would produce, so
every theorem quantifies over all possible extraction results and hence over
all analysis contexts. Python floats are modelled as rationals; free-text
explanation strings are kept short where no claim depends on their contents.
-/

namespace FraudSignals

/-- Result from a single detector (base.py, dataclass SignalResult). The
Python `indicators: dict[str, Any]` is modelled as an association list of
string pairs; only the presence of specific keys matters to any claim. -/
structure SignalResult where
  detector_name : String
  score : ℚ
  weight : ℚ
  indicators : List (String × String)
  explanation : String
  confidence : ℚ
deriving Repr, DecidableEq

/-- BaseDetector._make_result (base.py lines 58-73): builds a SignalResult
with the score clamped to [0, 100] via min(max(score, 0), 100). Confidence is
passed through unclamped, exactly as in the source. -/
def makeResult (name : String) (weight : ℚ) (score : ℚ)
    (indicators : List (String × String)) (explanation : String)
    (confidence : ℚ) : SignalResult :=
  { detector_name := name
    score := min (max score 0) 100
    weight := weight
    indicators := indicators
    explanation := explanation
    confidence := confidence }

/-- BaseDetector.__init__ (base.py lines 42-43), modelled effectfully so that
the possibility of raising at construction time is expressible. The source
body is the single assignment
`self.weight = weight if weight is not None else self.default_weight`;
it contains no validation and no raise, so the translation always succeeds. -/
def baseDetectorInit (weight : Option ℚ) (defaultWeight : ℚ) : Except String ℚ :=
  .ok (weight.getD defaultWeight)

/-! ## BenfordDetector (benford.py) -/

/-- BENFORD_EXPECTED (benford.py lines 19-29): expected leading-digit
frequencies, with the literal decimal constants of the source. -/
def BENFORD_EXPECTED (d : ℕ) : ℚ :=
  match d with
  | 1 => 301/1000
  | 2 => 176/1000
  | 3 => 125/1000
  | 4 => 97/1000
  | 5 => 79/1000
  | 6 => 67/1000
  | 7 => 58/1000
  | 8 => 51/1000
  | 9 => 46/1000
  | _ => 0

/-- Digits 1 through 9, the iteration range `range(1, 10)` of the source. -/
def digitRange : List ℕ := (List.range 9).map (· + 1)

/-- chi_squared_statistic (benford.py lines 57-65). -/
def chiSquaredStatistic (observed : ℕ → ℚ) (n : ℕ) : ℚ :=
  (digitRange.map (fun d =>
    let exp := BENFORD_EXPECTED d * n
    if 0 < exp then (observed d - exp) ^ 2 / exp else 0)).sum

/-- mean_absolute_deviation (benford.py lines 68-75). -/
def meanAbsoluteDeviation (observedPct : ℕ → ℚ) : ℚ :=
  (digitRange.map (fun d => |observedPct d - BENFORD_EXPECTED d|)).sum / 9

/-- BenfordDetector.detect (benford.py lines 95-180), as a function of the
merged leading-digit list (text extraction plus pre-extracted amounts). -/
def benfordDetect (weight : ℚ) (minNumbers : ℕ) (leadingDigits : List ℕ) :
    SignalResult :=
  let n := leadingDigits.length
  if n < minNumbers then
    makeResult "benford" weight 0
      [("sample_size", toString n), ("min_required", toString minNumbers)]
      "Insufficient numbers for Benford analysis." (3/10)
  else
    let observedPct : ℕ → ℚ := fun d => (leadingDigits.count d : ℚ) / n
    let observedCounts : ℕ → ℚ := fun d => (leadingDigits.count d : ℚ)
    let mad := meanAbsoluteDeviation observedPct
    let chiSq := chiSquaredStatistic observedCounts n
    let sc : ℚ × ℚ :=
      if mad > 3/100 ∨ chiSq > 2009/100 then (35, 85/100)
      else if mad > 2/100 ∨ chiSq > 1551/100 then (20, 75/100)
      else if mad > 15/1000 then (10, 6/10)
      else (0, 7/10)
    makeResult "benford" weight sc.1
      [("sample_size", toString n)]
      "Benford leading digit analysis result." sc.2

/-! ## RoundNumberDetector (round_numbers.py) -/

/-- Test whether a rational is an exact multiple of a positive divisor,
mirroring the Python float test `amount % d == 0`. -/
def isMultipleOf (a : ℚ) (d : ℚ) : Bool := (a / d).den == 1

/-- is_round_number (round_numbers.py lines 44-77). Returns the flag and the
roundness type string. str(int(amount)) is modelled through the decimal
digits of the floor (amounts reaching this point are positive). -/
def isRoundNumber (amount : ℚ) : Bool × String :=
  if amount < 100 then (false, "")
  else if 1000 ≤ amount ∧ isMultipleOf amount 1000 then (true, "exact_thousands")
  else if 100 ≤ amount ∧ isMultipleOf amount 100 then (true, "exact_hundreds")
  else if 1000 ≤ amount ∧ amount.den = 1 then (true, "no_cents")
  else
    let digits := Nat.digits 10 (Int.toNat ⌊amount⌋)
    if 4 ≤ digits.length ∧ digits.dedup.length = 1 then (true, "repeated_digit")
    else if 4 ≤ digits.length ∧ 3 ≤ (digits.takeWhile (· = 0)).length then
      (true, "many_trailing_zeros")
    else (false, "")

/-- RoundNumberDetector.detect (round_numbers.py lines 97-172) as a function
of the merged amount list (text extraction plus pre-extracted amounts); the
filter to amounts at or above 100 is part of the translated body. -/
def roundNumbersDetect (weight : ℚ) (minAmounts : ℕ) (allAmounts : List ℚ) :
    SignalResult :=
  let amounts := allAmounts.filter (fun a => decide (100 ≤ a))
  if amounts.length < minAmounts then
    makeResult "round_numbers" weight 0
      [("amounts_found", toString amounts.length)]
      "Insufficient monetary amounts for analysis." (3/10)
  else
    let roundAmounts := amounts.filter (fun a => (isRoundNumber a).1)
    let roundRatio : ℚ := (roundAmounts.length : ℚ) / (amounts.length : ℚ)
    let sc : ℚ × ℚ :=
      if roundRatio > 8/10 ∧ 5 ≤ roundAmounts.length then (30, 85/100)
      else if roundRatio > 6/10 ∧ 4 ≤ roundAmounts.length then (20, 75/100)
      else if roundRatio > 4/10 ∧ 3 ≤ roundAmounts.length then (10, 65/100)
      else (0, 7/10)
    let exactThousands :=
      (amounts.filter (fun a => (isRoundNumber a).2 == "exact_thousands")).length
    let sc2 : ℚ × ℚ :=
      if 3 ≤ exactThousands then (sc.1 + 10, min (sc.2 + 1/10) 1) else sc
    makeResult "round_numbers" weight sc2.1
      [("total_amounts", toString amounts.length),
       ("round_amounts", toString roundAmounts.length)]
      "Round number prevalence analysis result." sc2.2

/-! ## SplitInvoiceDetector (split_invoice.py) -/

/-- One suspicious or below-threshold cluster from detect_split_pattern:
the threshold together with the amounts falling in its 80-99 percent band. -/
structure SplitCluster where
  threshold : ℚ
  amounts : List ℚ
deriving Repr, DecidableEq

/-- detect_split_pattern (split_invoice.py lines 74-111). For each threshold
T the cluster is the list of amounts in [0.80*T, 0.99*T); clusters of size at
least 2 are recorded, and those whose sum exceeds T are suspicious, adding
their size to total_suspicious. -/
def detectSplitPattern (amounts : List ℚ) (thresholds : List ℚ) :
    List SplitCluster × List SplitCluster × ℕ :=
  thresholds.foldl
    (fun acc threshold =>
      let cluster := amounts.filter
        (fun a => decide (threshold * (80/100) ≤ a ∧ a < threshold * (99/100)))
      if 2 ≤ cluster.length then
        let acc1 := (acc.1 ++ [⟨threshold, cluster⟩], acc.2.1, acc.2.2)
        if threshold < cluster.sum then
          (acc1.1, acc1.2.1 ++ [⟨threshold, cluster⟩], acc1.2.2 + cluster.length)
        else acc1
      else acc)
    ([], [], 0)

/-- Default approval thresholds of SplitInvoiceDetector.__init__
(split_invoice.py lines 132-138). -/
def defaultThresholds : List ℚ := [5000, 10000, 25000, 50000, 100000]

/-- Construction-time state of a SplitInvoiceDetector: the fields set by
its __init__. -/
structure SplitInvoiceState where
  weight : ℚ
  thresholds : List ℚ
deriving Repr, DecidableEq

/-- SplitInvoiceDetector.__init__ (split_invoice.py lines 126-138), modelled
effectfully so that the possibility of raising at construction time is
expressible. The source performs no validation and contains no raise: the
weight is stored via BaseDetector.__init__ (default 1.3) and
`self.thresholds = thresholds or [...]` falls back to the defaults exactly
when the argument is None or the empty list. Construction always succeeds. -/
def splitInvoiceInit (weight : Option ℚ) (thresholds : Option (List ℚ)) :
    Except String SplitInvoiceState :=
  match baseDetectorInit weight (13/10) with
  | .error e => .error e
  | .ok w =>
      let ts := thresholds.getD []
      .ok { weight := w, thresholds := if ts.isEmpty then defaultThresholds else ts }

/-- SplitInvoiceDetector.detect (split_invoice.py lines 140-207) as a
function of the merged amount list (extracted invoice candidates plus
pre-extracted amounts). The Python `list(set(amounts))` deduplication is
modelled by List.dedup; the tier conditions depend only on which distinct
amounts are present, not on their order. -/
def splitInvoiceDetect (weight : ℚ) (thresholds : List ℚ)
    (mergedAmounts : List ℚ) : SignalResult :=
  let amounts := mergedAmounts.dedup
  if amounts.length < 2 then
    makeResult "split_invoice" weight 0
      [("amounts_found", toString amounts.length)]
      "Insufficient data for split invoice analysis." (3/10)
  else
    let res := detectSplitPattern amounts thresholds
    let suspiciousCount := res.2.2
    let splitCount := res.2.1.length
    let sc : ℚ × ℚ :=
      if 3 ≤ splitCount ∨ 6 ≤ suspiciousCount then (40, 9/10)
      else if 2 ≤ splitCount ∨ 4 ≤ suspiciousCount then (30, 8/10)
      else if 1 ≤ splitCount ∨ 2 ≤ suspiciousCount then (20, 7/10)
      else (0, 6/10)
    makeResult "split_invoice" weight sc.1
      [("amounts_analyzed", toString amounts.length),
       ("total_suspicious_amounts", toString suspiciousCount)]
      "Split invoice pattern analysis result." sc.2

/-! ## BidRiggingDetector (bid_rigging.py) -/

/-- Distinct elements of a list in first-occurrence order, the order in which
a Python Counter enumerates its keys. -/
def uniqueInOrder {α : Type} [DecidableEq α] (l : List α) : List α :=
  l.foldl (fun acc a => if a ∈ acc then acc else acc ++ [a]) []

/-- Counter(l).most_common(1)[0]: the element of maximal multiplicity,
ties broken by first occurrence (most_common sorts stably by descending
count over first-occurrence key order). Defined for nonempty lists via a
head default. -/
def firstMostCommon (l : List ℚ) : ℚ × ℕ :=
  match uniqueInOrder l with
  | [] => (0, 0)
  | u :: us =>
      let best := us.foldl (fun b a => if l.count b < l.count a then a else b) u
      (best, l.count best)

/-- All unordered pairs of a list in combination order, as produced by
itertools.combinations(l, 2). -/
def pairsOf : List ℚ → List (ℚ × ℚ)
  | [] => []
  | a :: rest => rest.map (fun b => (a, b)) ++ pairsOf rest

/-- Maximum of a list of rationals (total; the callers pass nonempty lists). -/
def listMax (l : List ℚ) : ℚ := l.foldl max (l.headD 0)

/-- Minimum of a list of rationals (total; the callers pass nonempty lists). -/
def listMin (l : List ℚ) : ℚ := l.foldl min (l.headD 0)

/-- sorted(amounts): the bid amounts sorted ascending, duplicates kept
(bid_rigging.py line 112). -/
def sortedBids (amounts : List ℚ) : List ℚ :=
  List.insertionSort (fun a b : ℚ => a ≤ b) amounts

/-- sorted(set(amounts)): the distinct bid amounts sorted ascending
(bid_rigging.py line 84). -/
def sortedUniqueBids (amounts : List ℚ) : List ℚ :=
  List.insertionSort (fun a b : ℚ => a ≤ b) amounts.dedup

/-- The highest bid, sorted_amounts[-1] (bid_rigging.py line 113). -/
def winningBid (amounts : List ℚ) : ℚ := (sortedBids amounts).getLastD 0

/-- The losing bids, sorted_amounts[:-1] (bid_rigging.py line 114). -/
def losingBids (amounts : List ℚ) : List ℚ := (sortedBids amounts).dropLast

/-- Outcome of detect_bid_patterns: the pattern names found (in source
order) and the indicator types (one per pattern, same order). -/
structure BidPatternResult where
  patternsFound : List String
  indicatorTypes : List String
  bidCount : ℕ
  uniqueAmounts : ℕ
deriving Repr, DecidableEq

/-- detect_bid_patterns (bid_rigging.py lines 61-149) as a function of the
extracted bid amounts. Pattern 4 re-binds the sorted_amounts variable to the
multiset-sorted amounts whenever the amount count is at least 3, which is the
list pattern 5 then differences; with fewer amounts pattern 5 still sees the
duplicate-free sorted list from pattern 2, faithfully reproduced here. -/
def detectBidPatterns (amounts : List ℚ) : BidPatternResult :=
  if amounts.length < 2 then ⟨[], [], 0, 0⟩
  else
    let identical := (uniqueInOrder amounts).filter (fun a => 1 < amounts.count a)
    let p1 : List String := if identical ≠ [] then ["identical_bids"] else []
    let closePairs := (pairsOf (sortedUniqueBids amounts)).filter
      (fun p => decide (0 < p.1) && decide (|p.2 - p.1| / p.1 < 1/100))
    let p2 : List String := if closePairs ≠ [] then ["suspiciously_close_bids"] else []
    let roundBids := amounts.filter (fun a => decide (1000 ≤ a) && isMultipleOf a 1000)
    let p3 : List String :=
      if (amounts.length : ℚ) * (1/2) < (roundBids.length : ℚ)
      then ["excessive_round_bids"] else []
    let p4 : List String :=
      if 3 ≤ amounts.length then
        let highest := winningBid amounts
        let others := losingBids amounts
        let spread : ℚ :=
          if 0 < highest then (listMax others - listMin others) / highest else 0
        if spread < 5/100 ∧ 2 ≤ others.length then ["complementary_bids"] else []
      else []
    let diffSource := if 3 ≤ amounts.length then sortedBids amounts
      else sortedUniqueBids amounts
    let diffs := (diffSource.zip diffSource.tail).map (fun p => p.2 - p.1)
    let p5 : List String :=
      if 2 ≤ diffs.length then
        let mc := firstMostCommon diffs
        if 2 ≤ mc.2 ∧ 0 < mc.1 then ["sequential_bids"] else []
      else []
    let patterns := p1 ++ p2 ++ p3 ++ p4 ++ p5
    ⟨patterns, patterns, amounts.length, amounts.dedup.length⟩

/-- Fixed per-pattern score contributions of BidRiggingDetector.detect
(bid_rigging.py lines 205-211); unknown patterns contribute 5. -/
def bidPatternScore (p : String) : ℚ :=
  if p = "identical_bids" then 25
  else if p = "complementary_bids" then 30
  else if p = "suspiciously_close_bids" then 20
  else if p = "sequential_bids" then 15
  else if p = "excessive_round_bids" then 10
  else 5

/-- BidRiggingDetector.detect (bid_rigging.py lines 167-243) as a function of
the extracted bid amounts and the bid-context flag. When exactly one bid is
extracted, detect_bid_patterns takes its early return, whose dict lacks the
bid_count key, so the indicator construction raises KeyError; the model
returns that failure as an error, which the engine converts to a synthetic
zero result. -/
def bidRiggingDetect (weight : ℚ) (bidAmounts : List ℚ) (hasBidContext : Bool) :
    Except String SignalResult :=
  if bidAmounts.isEmpty ∧ ¬hasBidContext then
    .ok (makeResult "bid_rigging" weight 0 [("bid_context", "False")]
      "No bidding/procurement context detected." (1/2))
  else if bidAmounts.isEmpty then
    .ok (makeResult "bid_rigging" weight 0
      [("bid_context", "True"), ("bids_extracted", "0")]
      "Bidding context found but no structured bid data extracted." (4/10))
  else if bidAmounts.length < 2 then
    .error "KeyError: bid_count"
  else
    let analysis := detectBidPatterns bidAmounts
    let patterns := analysis.patternsFound
    let score := min ((patterns.map bidPatternScore).sum) 100
    let confidence := patterns.foldl (fun c _ => min (c + 1/10) (95/100)) (6/10)
    .ok (makeResult "bid_rigging" weight score
      [("bids_analyzed", toString analysis.bidCount),
       ("unique_amounts", toString analysis.uniqueAmounts)]
      "Bid pattern analysis result." confidence)

/-! ## KeywordDetector (keywords.py)

The Python module holds one shared dict KEYWORD_CATEGORIES whose values are
mutable category dicts. KeywordDetector.__init__ performs a shallow
dict.copy() of that table, so the per-name references still point at the
shared category objects, and extending an existing category mutates the
shared object in place. To make this aliasing expressible, category objects
live in an explicit heap (list indexed by object identity) and both the
module-level table and each instance hold name-to-reference associations. -/

/-- One category dict: term list and weight (keywords.py lines 16-59). -/
structure Category where
  keywords : List String
  weight : ℚ
deriving Repr, DecidableEq

/-- Heap of category objects, indexed by position (object identity). -/
abbrev Heap := List Category

/-- Keyword list of the bribery category (keywords.py lines 17-23). -/
def briberyKeywords : List String :=
  ["bribe", "kickback", "payoff", "grease payment", "facilitation payment",
   "under the table", "cash payment", "gift", "gratuity", "inducement"]

/-- Keyword list of the concealment category (keywords.py lines 24-30). -/
def concealmentKeywords : List String :=
  ["off-book", "undisclosed", "hidden", "secret", "confidential arrangement",
   "side agreement", "unofficial", "unrecorded", "destroy records"]

/-- Keyword list of the pressure category (keywords.py lines 31-37). -/
def pressureKeywords : List String :=
  ["must approve", "no questions", "bypass", "override", "expedite approval",
   "special handling", "exception", "waive requirement", "ignore policy"]

/-- Keyword list of the shell_entities category (keywords.py lines 38-44). -/
def shellEntitiesKeywords : List String :=
  ["shell company", "nominee", "offshore", "bearer shares", "trust account",
   "intermediary", "proxy", "front company", "special purpose vehicle"]

/-- Keyword list of the conflicts category (keywords.py lines 45-51). -/
def conflictsKeywords : List String :=
  ["conflict of interest", "related party", "family member",
   "personal relationship", "undisclosed relationship", "competing interest",
   "self-dealing"]

/-- Keyword list of the financial_irregularity category (keywords.py lines
52-58). -/
def financialIrregularityKeywords : List String :=
  ["cash only", "no receipt", "no invoice", "falsified", "inflated",
   "duplicate payment", "phantom", "fictitious", "overbilling"]

/-- The six module-level category objects, in table order, forming the
initial heap. -/
def initialHeap : Heap :=
  [⟨briberyKeywords, 2⟩,
   ⟨concealmentKeywords, 18/10⟩,
   ⟨pressureKeywords, 15/10⟩,
   ⟨shellEntitiesKeywords, 17/10⟩,
   ⟨conflictsKeywords, 16/10⟩,
   ⟨financialIrregularityKeywords, 19/10⟩]

/-- KEYWORD_CATEGORIES (keywords.py lines 16-59): the module-level table,
mapping category names to references into the heap. -/
def KEYWORD_CATEGORIES : List (String × ℕ) :=
  [("bribery", 0), ("concealment", 1), ("pressure", 2),
   ("shell_entities", 3), ("conflicts", 4), ("financial_irregularity", 5)]

/-- KeywordDetector.__init__ (keywords.py lines 96-108). The instance table
starts as KEYWORD_CATEGORIES.copy(), a shallow copy sharing the referenced
category objects. For each custom entry whose name is already present, the
shared category object has the new terms appended in place
(self.categories[category]["keywords"].extend(keywords)); otherwise a fresh
category object with weight 1.0 is allocated and only the instance table
gains the new name. Returns the instance table and the updated heap. -/
def keywordDetectorInit (heap : Heap)
    (custom : List (String × List String)) : List (String × ℕ) × Heap :=
  custom.foldl
    (fun st ck =>
      match List.lookup ck.1 st.1 with
      | some ref =>
          let c := st.2.getD ref ⟨[], 0⟩
          (st.1, st.2.set ref ⟨c.keywords ++ ck.2, c.weight⟩)
      | none => (st.1 ++ [(ck.1, st.2.length)], st.2 ++ [⟨ck.2, 1⟩]))
    (KEYWORD_CATEGORIES, heap)

/-- KeywordDetector.detect (keywords.py lines 110-170) as a function of the
resolved instance categories and an abstract matcher telling which keywords
the word-boundary search find_keywords hits in the context text at least
once. Per category the unique matched terms are counted; the raw score is
the sum of count * 10 * category weight over triggered categories, capped at
50, and the confidence is 0.6 plus 0.1 per triggered category, capped at
0.95; with no match at all the result is score 0 with confidence 0.7. -/
def keywordsDetect (weight : ℚ) (cats : List (String × Category))
    (matcher : String → Bool) : SignalResult :=
  let hits := cats.map (fun nc => (nc.1, (nc.2.keywords.filter matcher).dedup, nc.2.weight))
  let triggered := hits.filter (fun t => decide (t.2.1 ≠ []))
  if triggered.isEmpty then
    makeResult "keywords" weight 0
      [("categories_checked", toString cats.length)]
      "No suspicious keywords detected." (7/10)
  else
    let rawScore := (triggered.map (fun t => (t.2.1.length : ℚ) * 10 * t.2.2)).sum
    let score := min rawScore 50
    let confidence := min (6/10 + (triggered.length : ℚ) * (1/10)) (95/100)
    makeResult "keywords" weight score
      [("categories_triggered", toString triggered.length)]
      "Suspicious keyword occurrences found." confidence

/-! ## UrgencyDetector (urgency.py) -/

/-- URGENCY_PATTERNS (urgency.py lines 13-38): the fixed regex patterns with
their weights. The regex sources are kept as opaque strings. -/
def URGENCY_PATTERNS : List (String × ℚ) :=
  [("urgent|urgently|asap|immediately|right away|right now", 15/10),
   ("rush|rushed|expedite|expedited", 13/10),
   ("critical|crucial|essential|vital deadline|timeline|timing", 14/10),
   ("today|tonight|this morning|this afternoon|within hours", 12/10),
   ("by end of|close of day|business", 13/10),
   ("deadline is today|tomorrow|approaching", 14/10),
   ("must be approved|needs immediate approval", 15/10),
   ("approve now|immediately|today|asap", 16/10),
   ("skip the review|bypass normal process", 18/10),
   ("or else|otherwise|consequences|penalty|penalized", 14/10),
   ("lose the deal|contract|opportunity", 15/10),
   ("missed the deadline", 13/10),
   ("ceo|cfo|president|director|boss wants|needs|demands", 14/10),
   ("executive order|request|priority", 13/10),
   ("do not question|delay|wait", 17/10)]

/-- UrgencyDetector.detect (urgency.py lines 54-104) as a function of the
per-pattern match counts (counts beyond the 15 table entries are ignored by
the zip, mirroring iteration over the fixed table). total_weight is the sum
of the matched-pattern weights over all occurrences; the score is
min(total_weight * 5, 25) and the confidence 0.5 plus 0.1 per distinct
matched pattern, capped at 0.85; with no match the result is score 0 with
confidence 0.7. -/
def urgencyDetect (weight : ℚ) (counts : List ℕ) : SignalResult :=
  let paired := URGENCY_PATTERNS.zip counts
  let totalWeight := (paired.map (fun p => (p.2 : ℚ) * p.1.2)).sum
  let totalMatches := (paired.map (fun p => p.2)).sum
  if totalMatches = 0 then
    makeResult "urgency" weight 0 []
      "No urgent or pressuring language detected." (7/10)
  else
    let uniqueCount := (paired.filter (fun p => decide (0 < p.2))).length
    let score := min (totalWeight * 5) 25
    let confidence := min (1/2 + (uniqueCount : ℚ) * (1/10)) (85/100)
    makeResult "urgency" weight score
      [("total_matches", toString totalMatches),
       ("unique_patterns", toString uniqueCount)]
      "Urgent or pressuring language detected." confidence

/-! ## VelocityDetector (velocity.py) -/

/-- One extracted date as the detector consumes it: the calendar-day key
(the strftime rendering used for same-day clustering), the day of month, and
the weekend flag computed by the extraction layer. -/
structure DateInfo where
  key : String
  day : ℕ
  isWeekend : Bool
deriving Repr, DecidableEq

/-- Outcome of analyze_date_patterns: pattern names and risk indicators as
(type, severity) pairs, in source order. -/
structure DatePatternResult where
  patterns : List String
  riskIndicators : List (String × String)
deriving Repr, DecidableEq

/-- analyze_date_patterns (velocity.py lines 73-124). Weekend activity above
ratio 0.3 yields severity medium when the ratio exceeds 0.5 and low
otherwise; any calendar day with at least 3 entries yields a medium
date-clustering indicator; month-end days (day of month at least 28) above
ratio 0.4 yield a low indicator. No branch emits severity high. -/
def analyzeDatePatterns (dates : List DateInfo) : DatePatternResult :=
  if dates.length < 2 then ⟨[], []⟩
  else
    let n := dates.length
    let weekendCount := (dates.filter (fun d => d.isWeekend)).length
    let weekendRatio : ℚ := (weekendCount : ℚ) / (n : ℚ)
    let w : List String × List (String × String) :=
      if weekendRatio > 3/10 then
        (["high_weekend_activity"],
         [("high_weekend_activity", if weekendRatio > 1/2 then "medium" else "low")])
      else ([], [])
    let keys := dates.map (fun d => d.key)
    let clusteredDays := (uniqueInOrder keys).filter (fun k => 3 ≤ keys.count k)
    let c : List String × List (String × String) :=
      if clusteredDays ≠ [] then
        (["date_clustering"], [("date_clustering", "medium")])
      else ([], [])
    let monthEndCount := (dates.filter (fun d => 28 ≤ d.day)).length
    let m : List String × List (String × String) :=
      if (monthEndCount : ℚ) > (n : ℚ) * (4/10) then
        (["month_end_clustering"], [("month_end_clustering", "low")])
      else ([], [])
    ⟨w.1 ++ c.1 ++ m.1, w.2 ++ c.2 ++ m.2⟩

/-- Severity point values of VelocityDetector.detect (velocity.py lines
176-183): high 15, medium 10, anything else 5. -/
def severityPoints (s : String) : ℚ :=
  if s = "high" then 15 else if s = "medium" then 10 else 5

/-- VelocityDetector.detect (velocity.py lines 141-209) as a function of the
merged extracted dates. Fewer than 2 dates gives score 0 with confidence
0.4; otherwise each indicator adds its severity points and 0.1 confidence,
with the score capped at 30 and the confidence at 0.8. -/
def velocityDetect (weight : ℚ) (dates : List DateInfo) : SignalResult :=
  if dates.length < 2 then
    makeResult "velocity" weight 0 [("dates_found", toString dates.length)]
      "Insufficient date data for velocity analysis." (4/10)
  else
    let analysis := analyzeDatePatterns dates
    let rawScore := (analysis.riskIndicators.map (fun pr => severityPoints pr.2)).sum
    let rawConfidence := 1/2 + (analysis.riskIndicators.length : ℚ) * (1/10)
    makeResult "velocity" weight (min rawScore 30)
      [("dates_analyzed", toString dates.length)]
      "Velocity and timing analysis result." (min rawConfidence (8/10))

/-! ## SignalEngine (engine.py) -/

/-- classify_risk_level (engine.py lines 35-44). -/
def classifyRiskLevel (score : ℤ) : String :=
  if 75 ≤ score then "critical"
  else if 50 ≤ score then "high"
  else if 25 ≤ score then "medium"
  else "low"

/-- Advice string for the benford factor (engine.py lines 53-56). -/
def benfordAdvice : String :=
  "Verify numerical data sources and check for potential data entry errors or manipulation."

/-- Advice string for the split_invoice factor (engine.py lines 58-61). -/
def splitInvoiceAdvice : String :=
  "Review related invoices for potential unauthorized splitting to avoid approval thresholds."

/-- Advice string for the bid_rigging factor (engine.py lines 63-66). -/
def bidRiggingAdvice : String :=
  "Investigate vendor relationships and review bidding history for potential collusion."

/-- Advice string for the round_numbers factor (engine.py lines 68-71). -/
def roundNumbersAdvice : String :=
  "Request supporting documentation for round-number amounts; verify against actual costs."

/-- Advice string for the keywords factor (engine.py lines 73-76). -/
def keywordsAdvice : String :=
  "Escalate for legal/compliance review due to concerning language patterns."

/-- Advice string for the urgency factor (engine.py lines 78-81). -/
def urgencyAdvice : String :=
  "Maintain normal approval process despite urgency pressure; verify legitimacy of deadlines."

/-- Advice string for the velocity factor (engine.py lines 83-86). -/
def velocityAdvice : String :=
  "Review timing patterns; consider whether after-hours/weekend activity is justified."

/-- Escalation directive inserted at position 0 for high or critical risk
(engine.py line 90). -/
def escalationAdvice : String :=
  "Flag for immediate supervisor review before any approval."

/-- Forensic-audit suggestion appended for high or critical risk
(engine.py line 91). -/
def forensicAdvice : String :=
  "Consider forensic audit of related transactions and parties."

/-- The fixed mapping from triggered detector name to canned advice, in the
order of the if-chain of generate_recommendations (engine.py lines 53-86). -/
def RECOMMENDATION_MAP : List (String × String) :=
  [("benford", benfordAdvice),
   ("split_invoice", splitInvoiceAdvice),
   ("bid_rigging", bidRiggingAdvice),
   ("round_numbers", roundNumbersAdvice),
   ("keywords", keywordsAdvice),
   ("urgency", urgencyAdvice),
   ("velocity", velocityAdvice)]

/-- generate_recommendations (engine.py lines 47-93): collect the canned
advice for every triggered detector name in if-chain order; for high or
critical risk insert the escalation directive at position 0 and append the
forensic-audit suggestion; finally keep only the first 5 entries. -/
def generateRecommendations (factorTypes : List String) (riskLevel : String) :
    List String :=
  let recs := RECOMMENDATION_MAP.filterMap
    (fun p => if p.1 ∈ factorTypes then some p.2 else none)
  let recs2 :=
    if riskLevel = "high" ∨ riskLevel = "critical" then
      escalationAdvice :: recs ++ [forensicAdvice]
    else recs
  recs2.take 5

/-- A detector as the engine sees it (engine.py line 140): a name, a weight
and a detect callable that may raise, modelled as an Except value. The
context type is abstract, so the engine theorems quantify over every
possible analysis context and detector behavior. -/
structure Detector (Ctx : Type) where
  name : String
  weight : ℚ
  run : Ctx → Except String SignalResult

/-- The synthetic SignalResult the engine builds when a detector raises
(engine.py lines 144-153): zero score, zero confidence, the error detail
under the error key of indicators. -/
def errorResult (name : String) (weight : ℚ) (e : String) : SignalResult :=
  { detector_name := name
    score := 0
    weight := weight
    indicators := [("error", e)]
    explanation := "Detector error: " ++ e
    confidence := 0 }

/-- The detector loop of SignalEngine.analyze (engine.py lines 140-153):
every detector runs in order; a raised failure is caught and replaced by the
synthetic error result, so the loop always yields one result per detector. -/
def runDetectors {Ctx : Type} (detectors : List (Detector Ctx)) (ctx : Ctx) :
    List SignalResult :=
  detectors.map (fun d =>
    match d.run ctx with
    | .ok r => r
    | .error e => errorResult d.name d.weight e)

/-- Python int() applied to a rational: truncation toward zero. -/
def truncInt (q : ℚ) : ℤ := if 0 ≤ q then ⌊q⌋ else -⌊-q⌋

/-- Rounding of a rational to the nearest integer with ties to even, the
idealization of Python round() on floats. -/
def roundHalfEven (q : ℚ) : ℤ :=
  if q - ⌊q⌋ < 1/2 then ⌊q⌋
  else if 1/2 < q - ⌊q⌋ then ⌊q⌋ + 1
  else if ⌊q⌋ % 2 = 0 then ⌊q⌋ else ⌊q⌋ + 1

/-- Python round(q, 2) on a rational. -/
def round2 (q : ℚ) : ℚ := ((roundHalfEven (q * 100) : ℤ) : ℚ) / 100

/-- The ranking key score * weight * confidence used for top factors
(engine.py line 182). -/
def rankKey (r : SignalResult) : ℚ := r.score * r.weight * r.confidence

/-- The detector results with score above zero, in registration order
(engine.py lines 180-181 build the same filtered list before sorting). -/
def contributing (results : List SignalResult) : List SignalResult :=
  results.filter (fun r => decide (0 < r.score))

/-- Total preorder on index-decorated results: earlier means strictly larger
ranking key, or equal key and not-later registration index. Python sorted
with reverse=True is stable, so its output on the decorated list is exactly
the unique ordering sorted by this relation. -/
def factorLe (a b : ℕ × SignalResult) : Prop :=
  rankKey b.2 < rankKey a.2 ∨ (rankKey a.2 = rankKey b.2 ∧ a.1 ≤ b.1)

instance : DecidableRel factorLe := fun a b => by unfold factorLe; infer_instance

instance : IsTotal (ℕ × SignalResult) factorLe where
  total a b := by
    rcases lt_trichotomy (rankKey a.2) (rankKey b.2) with h | h | h
    · exact Or.inr (Or.inl h)
    · rcases le_total a.1 b.1 with h1 | h1
      · exact Or.inl (Or.inr ⟨h, h1⟩)
      · exact Or.inr (Or.inr ⟨h.symm, h1⟩)
    · exact Or.inl (Or.inl h)

instance : IsTrans (ℕ × SignalResult) factorLe where
  trans a b c hab hbc := by
    rcases hab with h | ⟨he, hi⟩ <;> rcases hbc with h2 | ⟨he2, hi2⟩
    · exact Or.inl (lt_trans h2 h)
    · exact Or.inl (he2 ▸ h)
    · exact Or.inl (he ▸ h2)
    · exact Or.inr ⟨he.trans he2, le_trans hi hi2⟩

/-- The sorted contributing results (engine.py lines 180-184), decorated
with their registration-order index within the filtered list. -/
def contributingSorted (results : List SignalResult) : List (ℕ × SignalResult) :=
  List.insertionSort factorLe (contributing results).enum

/-- The top 5 contributing results with their registration indices
(engine.py line 196 keeps contributing_results[:5]). -/
def topFactorsDecorated (results : List SignalResult) : List (ℕ × SignalResult) :=
  (contributingSorted results).take 5

/-- The top factor results themselves, in ranked order. The source projects
each to a summary dict carrying the detector name, the rounded contribution
and confidence, the explanation and up to 3 indicators; the full results are
kept here, and only the detector name projection is consumed downstream. -/
def topFactorResults (results : List SignalResult) : List SignalResult :=
  (topFactorsDecorated results).map Prod.snd

/-- Aggregated result of one engine invocation (engine.py lines 21-32).
The free-text explanation and the signals breakdown mapping are omitted:
no claim references them. top_factors keeps the ranked SignalResults rather
than their summary-dict projections. -/
structure AggregatedRiskResult where
  risk_score : ℤ
  risk_level : String
  confidence : ℚ
  top_factors : List SignalResult
  detector_results : List SignalResult
  recommendations : List String
deriving Repr, DecidableEq

/-- SignalEngine.analyze (engine.py lines 127-238). The accumulation loop
over detector results (lines 160-165) sums score * weight * confidence, the
weights, and the confidences of results with score above 0; with positive
total weight the risk score is int(min(total/weight_sum, 100)) and the
confidence the mean confidence of triggering detectors, else 0 and 0.5. The
returned confidence is rounded to 2 decimal places (line 232). -/
def analyze {Ctx : Type} (detectors : List (Detector Ctx)) (ctx : Ctx) :
    AggregatedRiskResult :=
  let detectorResults := runDetectors detectors ctx
  let acc := detectorResults.foldl
    (fun (a : ℚ × ℚ × ℚ) r =>
      if 0 < r.score then
        (a.1 + r.score * r.weight * r.confidence, a.2.1 + r.weight, a.2.2 + r.confidence)
      else a)
    (0, 0, 0)
  let sc : ℤ × ℚ :=
    if 0 < acc.2.1 then
      (truncInt (min (acc.1 / acc.2.1) 100),
       acc.2.2 / ((contributing detectorResults).length : ℚ))
    else (0, 1/2)
  let riskLevel := classifyRiskLevel sc.1
  let topFactors := topFactorResults detectorResults
  let recommendations :=
    generateRecommendations (topFactors.map (fun r => r.detector_name)) riskLevel
  { risk_score := sc.1
    risk_level := riskLevel
    confidence := round2 sc.2
    top_factors := topFactors
    detector_results := detectorResults
    recommendations := recommendations }

/-! ## Spec-side definitions for refinement comparison -/

/-- Condition for complementary bidding written from the words of claim C6
(not from the source): at least 2 losing bids, all distinct from the winning
bid, clustered within a 5 percent spread of each other. Used only to compare
the claim against the code. -/
def specComplementaryCond (amounts : List ℚ) : Prop :=
  2 ≤ (losingBids amounts).length
  ∧ (∀ a ∈ losingBids amounts, a ≠ winningBid amounts)
  ∧ listMax (losingBids amounts) - listMin (losingBids amounts) <
      (5/100) * listMax (losingBids amounts)

/-- Claim C6 as stated: for bid sets of at least 3 amounts, the
complementary_bids pattern is reported exactly when the spec-side
complementary condition holds. -/
def claimC6Statement : Prop :=
  ∀ amounts : List ℚ, 3 ≤ amounts.length →
    ("complementary_bids" ∈ (detectBidPatterns amounts).patternsFound ↔
      specComplementaryCond amounts)

/-- Concrete three-detector engine over the trivial context, used to
exercise the aggregation arithmetic of claim C1: three detectors with weight
1 returning score 10 with confidences 0.85, 0.75 and 0.6. -/
def c1Detectors : List (Detector Unit) :=
  [⟨"a", 1, fun _ => .ok (makeResult "a" 1 10 [] "" (85/100))⟩,
   ⟨"b", 1, fun _ => .ok (makeResult "b" 1 10 [] "" (75/100))⟩,
   ⟨"c", 1, fun _ => .ok (makeResult "c" 1 10 [] "" (6/10))⟩]

/-- Claim C1 as stated, confidence sentence (written from the claim, not
from the source): whenever some detector scores above 0, the returned
confidence equals the exact arithmetic mean of the confidences of the
triggering detectors. -/
def claimC1Statement : Prop :=
  ∀ detectors : List (Detector Unit),
    contributing (runDetectors detectors ()) ≠ [] →
    (analyze detectors ()).confidence =
      ((contributing (runDetectors detectors ())).map (fun r => r.confidence)).sum /
        ((contributing (runDetectors detectors ())).length : ℚ)

/-! ## Shared helper definitions and lemmas -/

/-- Resolve an instance category table against a heap, yielding the category
data the detect loop iterates over. -/
def resolveCategories (cats : List (String × ℕ)) (heap : Heap) :
    List (String × Category) :=
  cats.map (fun p => (p.1, heap.getD p.2 ⟨[], 0⟩))

/-- The invariant claimed for every detector output: score in [0, 100] and
confidence in [0, 1]. -/
def boundedResult (r : SignalResult) : Prop :=
  0 ≤ r.score ∧ r.score ≤ 100 ∧ 0 ≤ r.confidence ∧ r.confidence ≤ 1

theorem makeResult_score_bounds (name : String) (w s : ℚ)
    (ind : List (String × String)) (ex : String) (c : ℚ) :
    0 ≤ (makeResult name w s ind ex c).score ∧
      (makeResult name w s ind ex c).score ≤ 100 := by
  constructor
  · exact le_min (le_max_right s 0) (by norm_num)
  · exact min_le_right _ _

theorem confidence_makeResult (name : String) (w s : ℚ)
    (ind : List (String × String)) (ex : String) (c : ℚ) :
    (makeResult name w s ind ex c).confidence = c := rfl

theorem bid_confidence_foldl (l : List String) :
    ∀ c0 : ℚ, c0 ≤ 95/100 →
      l.foldl (fun c _ => min (c + 1/10) (95/100)) c0 =
        min (c0 + (l.length : ℚ) * (1/10)) (95/100) := by
  induction l with
  | nil => intro c0 h; simp [min_eq_left, h]
  | cons a t ih =>
      intro c0 h
      have hstep : min (c0 + 1/10) (95/100) ≤ 95/100 := min_le_right _ _
      rw [List.foldl_cons, ih _ hstep, List.length_cons]
      push_cast
      have ht : (0:ℚ) ≤ (t.length : ℚ) * (1/10) := by positivity
      rcases le_or_lt (c0 + 1/10) (95/100) with hc | hc
      · rw [min_eq_left hc]
        have harith : c0 + 1/10 + (t.length : ℚ) * (1/10) =
            c0 + ((t.length : ℚ) + 1) * (1/10) := by ring
        rw [harith]
      · rw [min_eq_right (le_of_lt hc),
          min_eq_right (by linarith : (95:ℚ)/100 ≤ 95/100 + (t.length : ℚ) * (1/10)),
          min_eq_right (by linarith : (95:ℚ)/100 ≤ c0 + ((t.length : ℚ) + 1) * (1/10))]

/-! ## Claim theorems -/

/-- Claim C3 (code bug evidence): constructing a KeywordDetector with
custom keywords that extend the existing bribery category mutates the shared
category object in place, because KEYWORD_CATEGORIES.copy() is shallow. The
module table maps bribery to heap object 0, which initially holds the
default term list; after construction it holds the extended list, and a
second detector constructed afterwards with no custom keywords resolves
bribery to the extended list as well — contradicting the claimed isolation. -/
theorem C3_shared_category_mutated :
    List.lookup "bribery" KEYWORD_CATEGORIES = some 0
    ∧ (initialHeap.getD 0 ⟨[], 0⟩).keywords = briberyKeywords
    ∧ ((keywordDetectorInit initialHeap [("bribery", ["slush fund"])]).2.getD 0
        ⟨[], 0⟩).keywords = briberyKeywords ++ ["slush fund"]
    ∧ List.lookup "bribery"
        (resolveCategories
          (keywordDetectorInit
            (keywordDetectorInit initialHeap [("bribery", ["slush fund"])]).2 []).1
          (keywordDetectorInit
            (keywordDetectorInit initialHeap [("bribery", ["slush fund"])]).2 []).2)
        = some ⟨briberyKeywords ++ ["slush fund"], 2⟩
    ∧ briberyKeywords ++ ["slush fund"] ≠ briberyKeywords := by
  refine ⟨rfl, rfl, rfl, rfl, ?_⟩
  decide

/-- Claim C4 counterexample: constructing a SplitInvoiceDetector with the
negative weight -1 (and the base detector likewise) succeeds silently, with
the negative weight stored, instead of raising as claimed. -/
theorem C4_counterexample :
    splitInvoiceInit (some (-1)) none = .ok ⟨-1, defaultThresholds⟩
    ∧ baseDetectorInit (some (-1)) 1 = .ok (-1)
    ∧ (-1 : ℚ) < 0 := by
  refine ⟨rfl, rfl, by norm_num⟩

/-- Claim C4 amended: detector construction performs no validation at all
and never raises; any weight (negative included) and any threshold list are
accepted and stored, with None or an empty list falling back to the default
thresholds. -/
theorem C4_construction_never_raises (w : Option ℚ) (dw : ℚ)
    (ts : Option (List ℚ)) :
    (∃ st, splitInvoiceInit w ts = .ok st)
    ∧ (∃ q, baseDetectorInit w dw = .ok q) :=
  ⟨⟨_, rfl⟩, ⟨_, rfl⟩⟩

theorem makeResult_bounded (name : String) (w s : ℚ)
    (ind : List (String × String)) (ex : String) (c : ℚ)
    (h0 : 0 ≤ c) (h1 : c ≤ 1) : boundedResult (makeResult name w s ind ex c) :=
  ⟨(makeResult_score_bounds name w s ind ex c).1,
   (makeResult_score_bounds name w s ind ex c).2, h0, h1⟩

theorem benfordDetect_bounded (w : ℚ) (mn : ℕ) (ds : List ℕ) :
    boundedResult (benfordDetect w mn ds) := by
  simp only [benfordDetect]
  split_ifs <;> apply makeResult_bounded <;> norm_num

theorem roundNumbersDetect_bounded (w : ℚ) (mn : ℕ) (amts : List ℚ) :
    boundedResult (roundNumbersDetect w mn amts) := by
  simp only [roundNumbersDetect]
  split_ifs <;> apply makeResult_bounded <;> norm_num

theorem splitInvoiceDetect_bounded (w : ℚ) (ts : List ℚ) (amts : List ℚ) :
    boundedResult (splitInvoiceDetect w ts amts) := by
  simp only [splitInvoiceDetect]
  split_ifs <;> apply makeResult_bounded <;> norm_num

theorem keywordsDetect_bounded (w : ℚ) (cats : List (String × Category))
    (matcher : String → Bool) : boundedResult (keywordsDetect w cats matcher) := by
  simp only [keywordsDetect]
  split_ifs <;> apply makeResult_bounded
  · norm_num
  · norm_num
  · exact le_min (by positivity) (by norm_num)
  · exact le_trans (min_le_right _ _) (by norm_num)

theorem urgencyDetect_bounded (w : ℚ) (counts : List ℕ) :
    boundedResult (urgencyDetect w counts) := by
  simp only [urgencyDetect]
  split_ifs <;> apply makeResult_bounded
  · norm_num
  · norm_num
  · exact le_min (by positivity) (by norm_num)
  · exact le_trans (min_le_right _ _) (by norm_num)

theorem velocityDetect_bounded (w : ℚ) (dates : List DateInfo) :
    boundedResult (velocityDetect w dates) := by
  simp only [velocityDetect]
  split_ifs <;> apply makeResult_bounded
  · norm_num
  · norm_num
  · exact le_min (by positivity) (by norm_num)
  · exact le_trans (min_le_right _ _) (by norm_num)

theorem bidRiggingDetect_bounded (w : ℚ) (bids : List ℚ) (hasCtx : Bool) :
    match bidRiggingDetect w bids hasCtx with
    | .ok r => boundedResult r
    | .error _ => True := by
  simp only [bidRiggingDetect]
  split_ifs
  · exact makeResult_bounded _ _ _ _ _ _ (by norm_num) (by norm_num)
  · exact makeResult_bounded _ _ _ _ _ _ (by norm_num) (by norm_num)
  · trivial
  · refine makeResult_bounded _ _ _ _ _ _ ?_ ?_
    · rw [bid_confidence_foldl _ (6/10) (by norm_num)]
      exact le_min (by positivity) (by norm_num)
    · rw [bid_confidence_foldl _ (6/10) (by norm_num)]
      exact le_trans (min_le_right _ _) (by norm_num)

theorem errorResult_bounded (n : String) (w : ℚ) (e : String) :
    boundedResult (errorResult n w e) := by
  unfold boundedResult errorResult
  norm_num

/-- Claim C5: every detector of the ensemble returns, for every possible
extraction input (hence for every analysis context), a SignalResult with
score in [0, 100] and confidence in [0, 1]; the synthetic result the engine
builds when a detector raises satisfies the same bounds. -/
theorem C5_score_confidence_bounds :
    (∀ (w : ℚ) (mn : ℕ) (ds : List ℕ), boundedResult (benfordDetect w mn ds))
    ∧ (∀ (w : ℚ) (mn : ℕ) (amts : List ℚ), boundedResult (roundNumbersDetect w mn amts))
    ∧ (∀ (w : ℚ) (ts amts : List ℚ), boundedResult (splitInvoiceDetect w ts amts))
    ∧ (∀ (w : ℚ) (bids : List ℚ) (hasCtx : Bool),
        match bidRiggingDetect w bids hasCtx with
        | .ok r => boundedResult r
        | .error _ => True)
    ∧ (∀ (w : ℚ) (cats : List (String × Category)) (matcher : String → Bool),
        boundedResult (keywordsDetect w cats matcher))
    ∧ (∀ (w : ℚ) (counts : List ℕ), boundedResult (urgencyDetect w counts))
    ∧ (∀ (w : ℚ) (dates : List DateInfo), boundedResult (velocityDetect w dates))
    ∧ (∀ (n : String) (w : ℚ) (e : String), boundedResult (errorResult n w e)) :=
  ⟨benfordDetect_bounded, roundNumbersDetect_bounded, splitInvoiceDetect_bounded,
   bidRiggingDetect_bounded, keywordsDetect_bounded, urgencyDetect_bounded,
   velocityDetect_bounded, errorResult_bounded⟩

/-- Claim C10: the date-pattern analysis of the velocity detector only ever
emits indicators of severity medium or low — the high branch worth 15 points
is dead — and consequently the velocity score never exceeds 25, strictly
below the stated cap of 30. -/
theorem C10_velocity_severities (w : ℚ) (dates : List DateInfo) :
    ((analyzeDatePatterns dates).riskIndicators.all
      (fun pr => pr.2 == "medium" || pr.2 == "low")) = true
    ∧ (velocityDetect w dates).score ≤ 25 ∧ (25:ℚ) < 30 := by
  refine ⟨?_, ?_, by norm_num⟩
  · simp only [analyzeDatePatterns]
    split_ifs <;> rfl
  · simp only [velocityDetect, analyzeDatePatterns]
    split_ifs <;> simp [makeResult, severityPoints] <;> norm_num

/-- Claim C8: the Benford detector returns score 0 and confidence 0.3 when
fewer than min_numbers leading digits are collected, and otherwise follows
exactly the deviation tiers on MAD and chi-squared. The positivity
hypothesis on min_numbers (satisfied by the default 20) excludes the
degenerate construction min_numbers = 0, under which the Python code would
divide by zero on an empty sample instead of scoring. -/
theorem C8_benford_tiers (w : ℚ) (minN : ℕ) ( _hmin : 1 ≤ minN) (ds : List ℕ) :
    (ds.length < minN → (benfordDetect w minN ds).score = 0
      ∧ (benfordDetect w minN ds).confidence = 3/10)
    ∧ (minN ≤ ds.length →
        ((3/100 < meanAbsoluteDeviation (fun d => (ds.count d : ℚ) / ds.length)
            ∨ 2009/100 < chiSquaredStatistic (fun d => (ds.count d : ℚ)) ds.length) →
          (benfordDetect w minN ds).score = 35
          ∧ (benfordDetect w minN ds).confidence = 85/100)
        ∧ (¬(3/100 < meanAbsoluteDeviation (fun d => (ds.count d : ℚ) / ds.length)
            ∨ 2009/100 < chiSquaredStatistic (fun d => (ds.count d : ℚ)) ds.length) →
           (2/100 < meanAbsoluteDeviation (fun d => (ds.count d : ℚ) / ds.length)
            ∨ 1551/100 < chiSquaredStatistic (fun d => (ds.count d : ℚ)) ds.length) →
          (benfordDetect w minN ds).score = 20
          ∧ (benfordDetect w minN ds).confidence = 75/100)
        ∧ (¬(3/100 < meanAbsoluteDeviation (fun d => (ds.count d : ℚ) / ds.length)
            ∨ 2009/100 < chiSquaredStatistic (fun d => (ds.count d : ℚ)) ds.length) →
           ¬(2/100 < meanAbsoluteDeviation (fun d => (ds.count d : ℚ) / ds.length)
            ∨ 1551/100 < chiSquaredStatistic (fun d => (ds.count d : ℚ)) ds.length) →
           15/1000 < meanAbsoluteDeviation (fun d => (ds.count d : ℚ) / ds.length) →
          (benfordDetect w minN ds).score = 10
          ∧ (benfordDetect w minN ds).confidence = 6/10)
        ∧ (¬(3/100 < meanAbsoluteDeviation (fun d => (ds.count d : ℚ) / ds.length)
            ∨ 2009/100 < chiSquaredStatistic (fun d => (ds.count d : ℚ)) ds.length) →
           ¬(2/100 < meanAbsoluteDeviation (fun d => (ds.count d : ℚ) / ds.length)
            ∨ 1551/100 < chiSquaredStatistic (fun d => (ds.count d : ℚ)) ds.length) →
           ¬(15/1000 < meanAbsoluteDeviation (fun d => (ds.count d : ℚ) / ds.length)) →
          (benfordDetect w minN ds).score = 0
          ∧ (benfordDetect w minN ds).confidence = 7/10)) := by
  refine ⟨?_, ?_⟩
  · intro h
    simp only [benfordDetect]
    rw [if_pos h]
    constructor <;> norm_num [makeResult]
  · intro h
    have hn : ¬(ds.length < minN) := not_lt.mpr h
    simp only [benfordDetect]
    rw [if_neg hn]
    refine ⟨?_, ?_, ?_, ?_⟩
    · intro hc
      rw [if_pos hc]
      constructor <;> norm_num [makeResult]
    · intro hc1 hc2
      rw [if_neg hc1, if_pos hc2]
      constructor <;> norm_num [makeResult]
    · intro hc1 hc2 hc3
      rw [if_neg hc1, if_neg hc2, if_pos hc3]
      constructor <;> norm_num [makeResult]
    · intro hc1 hc2 hc3
      rw [if_neg hc1, if_neg hc2, if_neg hc3]
      constructor <;> norm_num [makeResult]

/-- Witness for Claim C8 at a concrete input: 20 samples all leading with
digit 9 exceed the top MAD threshold, giving score 35 and confidence 0.85. -/
theorem digitRange_eq : digitRange = [1, 2, 3, 4, 5, 6, 7, 8, 9] := by decide

theorem C8_benford_witness :
    (benfordDetect (12/10) 20 (List.replicate 20 9)).score = 35
    ∧ (benfordDetect (12/10) 20 (List.replicate 20 9)).confidence = 85/100 := by
  have h := (C8_benford_tiers (12/10) 20 (by norm_num) (List.replicate 20 9)).2
    (by simp)
  exact h.1 (Or.inl (by norm_num [meanAbsoluteDeviation, digitRange_eq,
    BENFORD_EXPECTED, List.count_replicate, List.length_replicate, abs_of_nonneg]))

theorem filterMap_ite_length {α β : Type} (f : α → β) (p : α → Prop)
    [DecidablePred p] (l : List α) :
    (l.filterMap (fun a => if p a then some (f a) else none)).length
      = (l.filter (fun a => decide (p a))).length := by
  induction l with
  | nil => rfl
  | cons a t ih => by_cases h : p a <;> simp [h, ih]

theorem mem_filterMap_ite {α β : Type} (f : α → β) (p : α → Prop)
    [DecidablePred p] (l : List α) (b : β)
    (hb : b ∈ l.filterMap (fun a => if p a then some (f a) else none)) :
    b ∈ l.map f := by
  rcases List.mem_filterMap.mp hb with ⟨a, ha, hfa⟩
  by_cases h : p a
  · rw [if_pos h] at hfa
    exact List.mem_map.mpr ⟨a, ha, Option.some_injective _ hfa⟩
  · rw [if_neg h] at hfa
    exact absurd hfa (Option.some_ne_none _).symm

/-- Claim C7 counterexample: with four triggered detectors and high risk the
escalation directive is present but the truncation to 5 entries drops the
forensic-audit suffix, so prefix and suffix do not both appear. -/
theorem C7_counterexample :
    escalationAdvice ∈ generateRecommendations
      ["benford", "split_invoice", "bid_rigging", "round_numbers"] "high"
    ∧ forensicAdvice ∉ generateRecommendations
      ["benford", "split_invoice", "bid_rigging", "round_numbers"] "high" := by
  constructor <;> decide

/-- Claim C7 amended: the recommendation list has at most 5 entries drawn
from the fixed advice strings; for high or critical risk the escalation
directive is always the first entry, and the forensic-audit suffix is
present exactly when at most 3 detector-specific recommendations are
triggered: with 4 or more, the truncation to 5 entries drops it, proved in
both directions over all triggered-factor lists. -/
theorem C7_recommendations (factorTypes : List String) (riskLevel : String) :
    (generateRecommendations factorTypes riskLevel).length ≤ 5
    ∧ (∀ s ∈ generateRecommendations factorTypes riskLevel,
        s = escalationAdvice ∨ s = forensicAdvice ∨
        s ∈ RECOMMENDATION_MAP.map Prod.snd)
    ∧ ((riskLevel = "high" ∨ riskLevel = "critical") →
        (generateRecommendations factorTypes riskLevel).head? = some escalationAdvice)
    ∧ ((riskLevel = "high" ∨ riskLevel = "critical") →
        (RECOMMENDATION_MAP.filter (fun p => decide (p.1 ∈ factorTypes))).length ≤ 3 →
        forensicAdvice ∈ generateRecommendations factorTypes riskLevel)
    ∧ ((riskLevel = "high" ∨ riskLevel = "critical") →
        4 ≤ (RECOMMENDATION_MAP.filter (fun p => decide (p.1 ∈ factorTypes))).length →
        forensicAdvice ∉ generateRecommendations factorTypes riskLevel) := by
  refine ⟨?_, ?_, ?_, ?_, ?_⟩
  · rw [generateRecommendations, List.length_take]
    exact min_le_left _ _
  · intro s hs
    have hs2 := List.mem_of_mem_take hs
    simp only [generateRecommendations] at hs2
    split_ifs at hs2 with hrl
    · rcases List.mem_cons.mp hs2 with h | h
      · exact Or.inl h
      · rcases List.mem_append.mp h with h2 | h2
        · exact Or.inr (Or.inr (mem_filterMap_ite Prod.snd _ _ _ h2))
        · exact Or.inr (Or.inl (List.mem_singleton.mp h2))
    · exact Or.inr (Or.inr (mem_filterMap_ite Prod.snd _ _ _ hs2))
  · intro hrl
    rw [generateRecommendations, if_pos hrl]
    rfl
  · intro hrl hcount
    rw [generateRecommendations, if_pos hrl]
    have hbase : (RECOMMENDATION_MAP.filterMap
        (fun p => if p.1 ∈ factorTypes then some p.2 else none)).length ≤ 3 := by
      rw [filterMap_ite_length Prod.snd (fun p => p.1 ∈ factorTypes) RECOMMENDATION_MAP]
      exact hcount
    have hfull : (escalationAdvice :: (RECOMMENDATION_MAP.filterMap
        (fun p => if p.1 ∈ factorTypes then some p.2 else none)) ++
        [forensicAdvice]).length ≤ 5 := by
      simp only [List.length_cons, List.length_append, List.length_nil]
      omega
    rw [List.take_of_length_le hfull]
    simp
  · intro hrl hcount4 hmem
    rw [generateRecommendations, if_pos hrl] at hmem
    have hbase4 : 4 ≤ (RECOMMENDATION_MAP.filterMap
        (fun p => if p.1 ∈ factorTypes then some p.2 else none)).length := by
      rw [filterMap_ite_length Prod.snd (fun p => p.1 ∈ factorTypes) RECOMMENDATION_MAP]
      exact hcount4
    have hsub : ∀ s ∈ RECOMMENDATION_MAP.filterMap
        (fun p => if p.1 ∈ factorTypes then some p.2 else none),
        s ∈ RECOMMENDATION_MAP.map Prod.snd :=
      fun s hs => mem_filterMap_ite Prod.snd _ _ _ hs
    have hne : forensicAdvice ≠ escalationAdvice := by decide
    have hnotin : forensicAdvice ∉ RECOMMENDATION_MAP.map Prod.snd := by decide
    generalize hB : RECOMMENDATION_MAP.filterMap
        (fun p => if p.1 ∈ factorTypes then some p.2 else none) = B
        at hmem hbase4 hsub
    match B, hbase4, hmem, hsub with
    | b1 :: b2 :: b3 :: b4 :: rest, _, hmem, hsub =>
      have htake : List.take 5
          (escalationAdvice :: (b1 :: b2 :: b3 :: b4 :: rest) ++ [forensicAdvice])
          = [escalationAdvice, b1, b2, b3, b4] := rfl
      rw [htake] at hmem
      simp only [List.mem_cons, List.not_mem_nil, or_false] at hmem
      rcases hmem with h | h | h | h | h
      · exact hne h
      · subst h
        exact hnotin (hsub _ (by simp))
      · subst h
        exact hnotin (hsub _ (by simp))
      · subst h
        exact hnotin (hsub _ (by simp))
      · subst h
        exact hnotin (hsub _ (by simp))

/-- Witness for Claim C7 at concrete inputs: one triggered detector with
high risk keeps both the escalation directive at the head and the
forensic-audit suffix in the list, while four triggered detectors with high
risk lose the suffix to truncation. -/
theorem C7_witness :
    (generateRecommendations ["benford"] "high").head? = some escalationAdvice
    ∧ forensicAdvice ∈ generateRecommendations ["benford"] "high"
    ∧ forensicAdvice ∉ generateRecommendations
        ["benford", "split_invoice", "bid_rigging", "round_numbers"] "high" := by
  have h1 := C7_recommendations ["benford"] "high"
  have h2 := C7_recommendations
    ["benford", "split_invoice", "bid_rigging", "round_numbers"] "high"
  exact ⟨h1.2.2.1 (Or.inl rfl), h1.2.2.2.1 (Or.inl rfl) (by decide),
    h2.2.2.2.2 (Or.inl rfl) (by decide)⟩

theorem mem_ite_singleton {α : Type} {c : Prop} [Decidable c] (s t : α) :
    (s ∈ if c then [t] else []) ↔ c ∧ s = t := by
  split_ifs with h <;> simp [h]

theorem complementary_mem_iff (amounts : List ℚ) (h : 3 ≤ amounts.length) :
    ("complementary_bids" ∈ (detectBidPatterns amounts).patternsFound ↔
      (¬ (0:ℚ) < winningBid amounts ∨
        (listMax (losingBids amounts) - listMin (losingBids amounts)) /
          winningBid amounts < 5/100)) := by
  have h2 : ¬ (amounts.length < 2) := by omega
  have hlen : 2 ≤ (losingBids amounts).length := by
    simp only [losingBids, sortedBids, List.length_dropLast,
      List.length_insertionSort]
    omega
  have e1 : "complementary_bids" ≠ "identical_bids" := by decide
  have e2 : "complementary_bids" ≠ "suspiciously_close_bids" := by decide
  have e3 : "complementary_bids" ≠ "excessive_round_bids" := by decide
  have e5 : "complementary_bids" ≠ "sequential_bids" := by decide
  simp only [detectBidPatterns]
  rw [if_neg h2]
  simp only [List.mem_append, mem_ite_singleton, if_pos h]
  simp only [e1, e2, e3, e5, and_false, false_or, or_false, eq_self_iff_true,
    and_true, hlen]
  by_cases hw : (0:ℚ) < winningBid amounts
  · rw [if_pos hw]
    simp [hw]
  · rw [if_neg hw]
    simp only [hw, not_false_iff, true_or, iff_true]
    norm_num

/-- Claim C6 counterexample: on the bid set [100, 100, 100] the code reports
the complementary_bids pattern although every losing bid equals the winning
bid, so the pattern is not reported exactly under the claimed condition
(losers distinct from the winner). -/
theorem C6_counterexample : ¬ claimC6Statement := by
  intro hcl
  have hsl : sortedBids [100, 100, 100] = ([100, 100, 100] : List ℚ) := by
    norm_num [sortedBids]
  have hmem : "complementary_bids" ∈
      (detectBidPatterns [100, 100, 100]).patternsFound := by
    rw [complementary_mem_iff [100, 100, 100] (by norm_num)]
    right
    simp only [winningBid, losingBids, hsl]
    norm_num [listMax, listMin]
  have h1 := (hcl [100, 100, 100] (by norm_num)).mp hmem
  have h100 : (100:ℚ) ∈ losingBids [100, 100, 100] := by
    simp [losingBids, hsl]
  have hw : winningBid [100, 100, 100] = (100:ℚ) := by
    simp [winningBid, hsl]
  exact (hw ▸ h1.2.1 100 h100) rfl

/-- Claim C6 amended: for bid sets of at least 3 amounts the code reports
complementary_bids exactly when the winning bid is nonpositive or the losing
bids (all sorted amounts but the last, duplicates of the winner included)
have spread (max - min) / winning bid below 5 percent; the losers are not
required to be distinct from the winner, and the spread is measured relative
to the winning bid. When detected, the pattern contributes its fixed 30 to
the summed score (capped at 100), and the confidence is 0.6 plus 0.1 per
detected pattern, capped at 0.95. -/
theorem C6_complementary_amended (w : ℚ) (amounts : List ℚ)
    (h : 3 ≤ amounts.length) :
    ("complementary_bids" ∈ (detectBidPatterns amounts).patternsFound ↔
      (¬ (0:ℚ) < winningBid amounts ∨
        (listMax (losingBids amounts) - listMin (losingBids amounts)) /
          winningBid amounts < 5/100))
    ∧ bidPatternScore "complementary_bids" = 30
    ∧ bidRiggingDetect w amounts true =
        .ok (makeResult "bid_rigging" w
          (min (((detectBidPatterns amounts).patternsFound.map bidPatternScore).sum) 100)
          [("bids_analyzed", toString (detectBidPatterns amounts).bidCount),
           ("unique_amounts", toString (detectBidPatterns amounts).uniqueAmounts)]
          "Bid pattern analysis result."
          (min (6/10 + ((detectBidPatterns amounts).patternsFound.length : ℚ) * (1/10))
            (95/100))) := by
  refine ⟨complementary_mem_iff amounts h, ?_, ?_⟩
  · have hne1 : ¬ ("complementary_bids" = "identical_bids") := by decide
    rw [bidPatternScore, if_neg hne1, if_pos rfl]
  have hne : ¬ (amounts.isEmpty = true) := by
    cases amounts with
    | nil => simp at h
    | cons a t => simp [List.isEmpty]
  have h2 : ¬ (amounts.length < 2) := by omega
  simp only [bidRiggingDetect]
  rw [if_neg (by simp [hne]), if_neg hne, if_neg h2,
    bid_confidence_foldl _ (6/10) (by norm_num)]

/-- Witness for the amended Claim C6 at a concrete input: on [100, 200, 300]
the losing bids spread exceeds 5 percent of the winning bid, so the pattern
is not reported. -/
theorem C6_complementary_witness :
    "complementary_bids" ∉ (detectBidPatterns [100, 200, 300]).patternsFound := by
  have hiff := (C6_complementary_amended 1 [100, 200, 300] (by norm_num)).1
  intro hm
  have h2 := hiff.mp hm
  have hsl : sortedBids [100, 200, 300] = ([100, 200, 300] : List ℚ) := by
    norm_num [sortedBids]
  simp only [winningBid, losingBids, hsl] at h2
  norm_num [listMax, listMin] at h2

/-- Claim C2: for every analysis context and every detector list, the engine
loop yields exactly one result per configured detector, in order; a detector
that returns a result has it taken as-is, and a detector that raises has the
exception caught and replaced by the synthetic zero-score, zero-confidence
result carrying the error detail, while all other detectors still run. The
model of analyze is a total function, so analyze never raises. -/
theorem runDetectors_spec {Ctx : Type} (detectors : List (Detector Ctx))
    (ctx : Ctx) :
    List.Forall₂
      (fun d r =>
        match d.run ctx with
        | .ok s => r = s
        | .error e => r = errorResult d.name d.weight e)
      detectors (runDetectors detectors ctx) := by
  unfold runDetectors
  induction detectors with
  | nil => exact List.Forall₂.nil
  | cons d t ih =>
      simp only [List.map_cons]
      refine List.Forall₂.cons ?_ ih
      cases hd : d.run ctx with
      | ok s => simp [hd]
      | error e => simp [hd]

theorem C2_failure_isolation {Ctx : Type} (detectors : List (Detector Ctx))
    (ctx : Ctx) :
    (analyze detectors ctx).detector_results.length = detectors.length
    ∧ List.Forall₂
        (fun d r =>
          match d.run ctx with
          | .ok s => r = s
          | .error e => r = errorResult d.name d.weight e)
        detectors (analyze detectors ctx).detector_results := by
  have hres : (analyze detectors ctx).detector_results = runDetectors detectors ctx :=
    rfl
  rw [hres]
  exact ⟨by simp [runDetectors], runDetectors_spec detectors ctx⟩

theorem contributingSorted_pairwise_strict (results : List SignalResult) :
    (contributingSorted results).Pairwise
      (fun a b => rankKey b.2 < rankKey a.2 ∨
        (rankKey a.2 = rankKey b.2 ∧ a.1 < b.1)) := by
  have hsorted : (contributingSorted results).Pairwise factorLe :=
    List.sorted_insertionSort factorLe ((contributing results).enum)
  have hperm := List.perm_insertionSort factorLe ((contributing results).enum)
  have hnodup : ((contributing results).enum).Pairwise
      (fun a b : ℕ × SignalResult => a.1 ≠ b.1) := by
    have h := List.nodup_enum_map_fst (contributing results)
    exact (List.pairwise_map).mp h
  have hnd : (contributingSorted results).Pairwise
      (fun a b : ℕ × SignalResult => a.1 ≠ b.1) :=
    (List.Perm.pairwise_iff (fun hab => Ne.symm hab) hperm).mpr hnodup
  refine (hsorted.and hnd).imp ?_
  rintro a b ⟨hle, hne⟩
  rcases hle with hlt | ⟨heq, hidx⟩
  · exact Or.inl hlt
  · exact Or.inr ⟨heq, lt_of_le_of_ne hidx hne⟩

theorem mem_contributing_of_mem_sorted (results : List SignalResult)
    (p : ℕ × SignalResult) (hp : p ∈ contributingSorted results) :
    p.2 ∈ contributing results := by
  have hperm := List.perm_insertionSort factorLe ((contributing results).enum)
  have hmem : p ∈ (contributing results).enum := hperm.mem_iff.mp hp
  have := List.enum_eq_zip_range (contributing results)
  rw [this] at hmem
  exact (List.of_mem_zip hmem).2

/-- Claim C9: top_factors contains only detector results with score above 0,
has at most 5 entries, and is sorted descending by score * weight *
confidence; on the index-decorated list the ordering is strict with ties
broken by ascending registration index, i.e. by detector registration
order. -/
theorem C9_top_factors {Ctx : Type} (detectors : List (Detector Ctx)) (ctx : Ctx) :
    (analyze detectors ctx).top_factors.length ≤ 5
    ∧ ((analyze detectors ctx).top_factors.all
        (fun r => decide (0 < r.score))) = true
    ∧ (analyze detectors ctx).top_factors.Pairwise
        (fun a b => rankKey b ≤ rankKey a)
    ∧ (topFactorsDecorated (analyze detectors ctx).detector_results).Pairwise
        (fun a b => rankKey b.2 < rankKey a.2 ∨
          (rankKey a.2 = rankKey b.2 ∧ a.1 < b.1))
    ∧ (analyze detectors ctx).top_factors =
        (topFactorsDecorated (analyze detectors ctx).detector_results).map Prod.snd := by
  have htf : (analyze detectors ctx).top_factors =
      topFactorResults (runDetectors detectors ctx) := rfl
  have hres : (analyze detectors ctx).detector_results = runDetectors detectors ctx :=
    rfl
  have hstrict := contributingSorted_pairwise_strict (runDetectors detectors ctx)
  have htake : (topFactorsDecorated (runDetectors detectors ctx)).Pairwise
      (fun a b => rankKey b.2 < rankKey a.2 ∨
        (rankKey a.2 = rankKey b.2 ∧ a.1 < b.1)) :=
    hstrict.sublist (List.take_sublist 5 _)
  refine ⟨?_, ?_, ?_, ?_, ?_⟩
  · rw [htf]
    simp only [topFactorResults, topFactorsDecorated, List.length_map,
      List.length_take]
    exact min_le_left _ _
  · rw [htf, List.all_eq_true]
    intro r hr
    simp only [topFactorResults] at hr
    rcases List.mem_map.mp hr with ⟨p, hp, rfl⟩
    have hp2 : p ∈ contributingSorted (runDetectors detectors ctx) :=
      List.mem_of_mem_take hp
    have hmem := mem_contributing_of_mem_sorted _ p hp2
    exact (List.mem_filter.mp hmem).2
  · rw [htf]
    simp only [topFactorResults]
    rw [List.pairwise_map]
    refine htake.imp ?_
    rintro a b (hlt | ⟨heq, _⟩)
    · exact le_of_lt hlt
    · exact le_of_eq heq.symm
  · rw [hres]
    exact htake
  · rw [htf, hres]
    rfl

theorem analyze_foldl_acc (results : List SignalResult) (init : ℚ × ℚ × ℚ) :
    (results.foldl
      (fun (a : ℚ × ℚ × ℚ) r =>
        if 0 < r.score then
          (a.1 + r.score * r.weight * r.confidence, a.2.1 + r.weight,
           a.2.2 + r.confidence)
        else a) init)
    = (init.1 + ((contributing results).map
          (fun r => r.score * r.weight * r.confidence)).sum,
       init.2.1 + ((contributing results).map (fun r => r.weight)).sum,
       init.2.2 + ((contributing results).map (fun r => r.confidence)).sum) := by
  induction results generalizing init with
  | nil => simp [contributing]
  | cons r t ih =>
      rw [List.foldl_cons]
      by_cases hr : 0 < r.score
      · rw [if_pos hr, ih]
        simp [contributing, List.filter_cons, hr, add_assoc]
      · rw [if_neg hr, ih]
        simp [contributing, List.filter_cons, hr]

/-- Claim C1 amended: with positively weighted detectors (as in the default
ensemble) and nonnegative confidences, the risk score is the floor of the
capped weight-and-confidence-weighted mean over detectors scoring above 0,
and with no triggering detector it is 0 with confidence 0.5; the returned
confidence, however, is the arithmetic mean of the triggering confidences
rounded to 2 decimal places (ties to even), not the exact mean. -/
theorem C1_engine_aggregation {Ctx : Type} (detectors : List (Detector Ctx))
    (ctx : Ctx)
    (h : ∀ r ∈ runDetectors detectors ctx, 0 < r.weight ∧ 0 ≤ r.confidence) :
    (contributing (runDetectors detectors ctx) = [] →
      (analyze detectors ctx).risk_score = 0
      ∧ (analyze detectors ctx).confidence = 1/2)
    ∧ (contributing (runDetectors detectors ctx) ≠ [] →
      (analyze detectors ctx).risk_score =
        ⌊min ((((contributing (runDetectors detectors ctx)).map
            (fun r => r.score * r.weight * r.confidence)).sum) /
          (((contributing (runDetectors detectors ctx)).map
            (fun r => r.weight)).sum)) 100⌋
      ∧ (analyze detectors ctx).confidence =
        round2 ((((contributing (runDetectors detectors ctx)).map
            (fun r => r.confidence)).sum) /
          ((contributing (runDetectors detectors ctx)).length : ℚ))) := by
  have hacc := analyze_foldl_acc (runDetectors detectors ctx) (0, 0, 0)
  constructor
  · intro ht
    simp only [analyze, hacc, ht, List.map_nil, List.sum_nil, add_zero]
    norm_num [round2, roundHalfEven]
  · intro ht
    have hwsum : 0 < ((contributing (runDetectors detectors ctx)).map
        (fun r => r.weight)).sum := by
      apply List.sum_pos
      · intro x hx
        rcases List.mem_map.mp hx with ⟨r, hr, rfl⟩
        exact (h r (List.mem_of_mem_filter hr)).1
      · simpa using ht
    have hnum : 0 ≤ (((contributing (runDetectors detectors ctx)).map
        (fun r => r.score * r.weight * r.confidence)).sum) := by
      apply List.sum_nonneg
      intro x hx
      rcases List.mem_map.mp hx with ⟨r, hr, rfl⟩
      have hs : (0:ℚ) < r.score := by
        have h2 := (List.mem_filter.mp hr).2
        simpa using h2
      have hw := (h r (List.mem_of_mem_filter hr)).1
      have hc := (h r (List.mem_of_mem_filter hr)).2
      exact mul_nonneg (mul_nonneg hs.le hw.le) hc
    have hq : 0 ≤ min ((((contributing (runDetectors detectors ctx)).map
          (fun r => r.score * r.weight * r.confidence)).sum) /
        (((contributing (runDetectors detectors ctx)).map
          (fun r => r.weight)).sum)) 100 :=
      le_min (div_nonneg hnum hwsum.le) (by norm_num)
    simp only [analyze, hacc, zero_add]
    rw [if_pos hwsum]
    constructor
    · simp only [truncInt]
      rw [if_pos hq]
    · rfl

/-- Claim C1 counterexample: on a three-detector engine with confidences
0.85, 0.75 and 0.6 the exact mean is 11/15 = 0.7333..., but analyze returns
round(11/15, 2) = 0.73, so the returned confidence is not the arithmetic
mean as claimed. -/
theorem C1_counterexample : ¬ claimC1Statement := by
  intro hcl
  have hrun : runDetectors c1Detectors () =
      [makeResult "a" 1 10 [] "" (85/100), makeResult "b" 1 10 [] "" (75/100),
       makeResult "c" 1 10 [] "" (6/10)] := rfl
  have hcontrib : contributing (runDetectors c1Detectors ()) =
      [makeResult "a" 1 10 [] "" (85/100), makeResult "b" 1 10 [] "" (75/100),
       makeResult "c" 1 10 [] "" (6/10)] := by
    rw [hrun]
    norm_num [contributing, List.filter_cons, makeResult]
  have htrig : contributing (runDetectors c1Detectors ()) ≠ [] := by
    rw [hcontrib]
    simp
  have h73 := hcl c1Detectors htrig
  have hvals : ((contributing (runDetectors c1Detectors ())).map
      (fun r => r.confidence)).sum /
      ((contributing (runDetectors c1Detectors ())).length : ℚ) = 11/15 := by
    rw [hcontrib]
    norm_num [makeResult]
  have hacc := analyze_foldl_acc (runDetectors c1Detectors ()) (0, 0, 0)
  have hconf : (analyze c1Detectors ()).confidence = 73/100 := by
    simp only [analyze, hacc, zero_add, hcontrib]
    norm_num [makeResult, round2, roundHalfEven]
  rw [hconf, hvals] at h73
  norm_num at h73

/-- Witness for the amended Claim C1 at the concrete three-detector engine:
risk score floor((10 * 0.85 + 10 * 0.75 + 10 * 0.6) / 3) = 7 and confidence
round(11/15, 2) = 0.73. -/
theorem C1_engine_witness :
    (analyze c1Detectors ()).risk_score = 7
    ∧ (analyze c1Detectors ()).confidence = 73/100 := by
  have hrun : runDetectors c1Detectors () =
      [makeResult "a" 1 10 [] "" (85/100), makeResult "b" 1 10 [] "" (75/100),
       makeResult "c" 1 10 [] "" (6/10)] := rfl
  have hcontrib : contributing (runDetectors c1Detectors ()) =
      [makeResult "a" 1 10 [] "" (85/100), makeResult "b" 1 10 [] "" (75/100),
       makeResult "c" 1 10 [] "" (6/10)] := by
    rw [hrun]
    norm_num [contributing, List.filter_cons, makeResult]
  have hhyp : ∀ r ∈ runDetectors c1Detectors (), 0 < r.weight ∧ 0 ≤ r.confidence := by
    intro r hr
    rw [hrun] at hr
    simp only [List.mem_cons, List.not_mem_nil, or_false] at hr
    rcases hr with rfl | rfl | rfl <;> constructor <;> norm_num [makeResult]
  have h := (C1_engine_aggregation c1Detectors () hhyp).2
    (by rw [hcontrib]; simp)
  constructor
  · rw [h.1, hcontrib]
    norm_num [makeResult]
  · rw [h.2, hcontrib]
    norm_num [makeResult, round2, roundHalfEven]

end FraudSignals
